import Mathlib

/-!
Shallow embedding of `pimgu` (src/pimgu/applet.py), a thin Pygame + ImGui
application framework.  User callbacks are opaque and identified by number;
a frame of the run loop is modelled as the list of observable steps it
performs (clock sync, event handling, callback invocations, GL texture
traffic, buffer swap).  Fallible operations return `Except PyError`.
-/

namespace Pimgu

/-- OpenGL texture identifiers, handed out by a fresh counter (modelling the
ids returned by successive `glGenTextures(1)` calls). -/
abbrev TextureId := Nat

/-- User callbacks are opaque to the framework; we identify them by number. -/
abbrev CallbackId := Nat

/-- A pygame event as the framework inspects it: either `pygame.QUIT` or any
other event (carrying an abstract payload). -/
inductive Ev
  | quit
  | other (k : Nat)
  deriving DecidableEq, Repr

/-- Outcome of calling one pygame render callback, as observed by the
statement `surface, cx, cy = callback()` in `Applet.__render`:
either a proper `(surface, center_x, center_y)` triple (the surface
abstracted to its size), an iterable of some other length, a value that is
not iterable at all, or an exception escaping the callback body. -/
inductive RenderCall
  | triple (surfaceW surfaceH : Nat) (cx cy : Int)
  | wrongArity (n : Nat)
  | nonIterable
  | raisesTypeError
  | raisesOther
  deriving DecidableEq, Repr

/-- Python exceptions the embedded code can raise.  `pimguError` stands for
the framework's own `raise Exception("[PIMGU] ...")`. -/
inductive PyError
  | pimguError (msg : String)
  | typeError (msg : String)
  | valueError (msg : String)
  | otherError
  deriving DecidableEq, Repr

/-- One observable step of a frame (or of the run epilogue). -/
inductive Step
  | syncClock (fps : Nat)
  | pollEvents
  | setRunning (b : Bool)
  | forwardToImgui (e : Ev)
  | inputCall (cb : CallbackId) (e : Ev)
  | imguiNewFrame
  | guiCall (cb : CallbackId)
  | imguiEndFrame
  | tickCall (cb : CallbackId)
  | clearScreen
  | renderCall (cb : CallbackId)
  | genTexture (tid : TextureId)
  | texImage (w h : Nat)
  | drawQuad (tid : TextureId)
  | deleteTexture (tid : TextureId)
  | imguiRender
  | flipDisplay
  | onEndCall (cb : CallbackId)
  | imguiShutdown
  | engineQuit
  deriving DecidableEq, Repr

/-- Step classifiers, used to state ordering and counting properties. -/
@[simp] def Step.isSync : Step → Bool
  | .syncClock _ => true
  | _ => false

@[simp] def Step.isInputCall : Step → Bool
  | .inputCall _ _ => true
  | _ => false

@[simp] def Step.isGuiCall : Step → Bool
  | .guiCall _ => true
  | _ => false

@[simp] def Step.isTickCall : Step → Bool
  | .tickCall _ => true
  | _ => false

@[simp] def Step.isRenderCall : Step → Bool
  | .renderCall _ => true
  | _ => false

@[simp] def Step.isGen : Step → Bool
  | .genTexture _ => true
  | _ => false

@[simp] def Step.isDelete : Step → Bool
  | .deleteTexture _ => true
  | _ => false

@[simp] def Step.isOnEnd : Step → Bool
  | .onEndCall _ => true
  | _ => false

/-- Steps produced by the body of the event loop in `Applet.__process_events`. -/
@[simp] def Step.isEventStep : Step → Bool
  | .setRunning _ => true
  | .forwardToImgui _ => true
  | .inputCall _ _ => true
  | _ => false

/-- Steps produced by the render-callback loop of `Applet.__render`. -/
@[simp] def Step.isRenderBodyStep : Step → Bool
  | .renderCall _ => true
  | .genTexture _ => true
  | .texImage _ _ => true
  | .drawQuad _ => true
  | .deleteTexture _ => true
  | _ => false

/-- The framework state established by `Applet.__init__` and mutated by the
setters and register methods.  Window/GL/ImGui handles live in the external
libraries and are not part of the framework-visible state. -/
structure Applet where
  title : String
  dimensions : Nat × Nat
  icon_path : String
  target_fps : Nat
  cls_color : Rat × Rat × Rat × Rat
  input_callbacks : List CallbackId
  imgui_callbacks : List CallbackId
  render_callbacks : List CallbackId
  tick_callbacks : List CallbackId
  on_end_callback : Option CallbackId
  running : Bool
  deriving DecidableEq, Repr

/-- Abstraction of `os.path.exists`, the only host query `Applet.__init__`
makes. -/
abbrev PathPredicate := String → Bool

/-- Default clear color set by `Applet.__init__`: `(0.1, 0.1, 0.1, 1)`. -/
def defaultClsColor : Rat × Rat × Rat × Rat := (1 / 10, 1 / 10, 1 / 10, 1)

/-- Model of `Applet.__init__`.  Pygame/GL/ImGui setup is delegated to the
external libraries; the framework raises `[PIMGU] Invalid icon path!` when a
nonempty icon path does not exist, and otherwise establishes the recorded
state: target fps 60, empty callback lists, `None` on-end callback, not
running. -/
def Applet.construct (title : String) (dimensions : Nat × Nat) (icon_path : String)
    (pathExists : PathPredicate) : Except PyError Applet :=
  if icon_path ≠ "" ∧ pathExists icon_path = false then
    .error (.pimguError "[PIMGU] Invalid icon path!")
  else
    .ok { title := title, dimensions := dimensions, icon_path := icon_path,
          target_fps := 60, cls_color := defaultClsColor,
          input_callbacks := [], imgui_callbacks := [], render_callbacks := [],
          tick_callbacks := [], on_end_callback := none, running := false }

/-- Model of `Applet.register_input_callback`: appends to the list. -/
def Applet.register_input_callback (s : Applet) (cb : CallbackId) : Applet :=
  { s with input_callbacks := s.input_callbacks ++ [cb] }

/-- Model of `Applet.register_imgui_callback`: appends to the list. -/
def Applet.register_imgui_callback (s : Applet) (cb : CallbackId) : Applet :=
  { s with imgui_callbacks := s.imgui_callbacks ++ [cb] }

/-- Model of `Applet.register_pygame_render_callback`: appends to the list. -/
def Applet.register_pygame_render_callback (s : Applet) (cb : CallbackId) : Applet :=
  { s with render_callbacks := s.render_callbacks ++ [cb] }

/-- Model of `Applet.register_tick_callback`: appends to the list. -/
def Applet.register_tick_callback (s : Applet) (cb : CallbackId) : Applet :=
  { s with tick_callbacks := s.tick_callbacks ++ [cb] }

/-- Model of `Applet.register_on_end_callback`: overwrites the single slot. -/
def Applet.register_on_end_callback (s : Applet) (cb : CallbackId) : Applet :=
  { s with on_end_callback := some cb }

/-- Model of `Applet.set_running`. -/
def Applet.set_running (s : Applet) (b : Bool) : Applet :=
  { s with running := b }

/-- Model of `Applet.set_target_fps`. -/
def Applet.set_target_fps (s : Applet) (fps : Nat) : Applet :=
  { s with target_fps := fps }

/-- Model of `Applet.set_cls_color`. -/
def Applet.set_cls_color (s : Applet) (c : Rat × Rat × Rat × Rat) : Applet :=
  { s with cls_color := c }

/-- The message of the exception `Applet.__render` raises when unpacking a
render callback's result raises `TypeError`. -/
def pimguRenderMsg : String :=
  "[PIMGU] When it is desired to draw a pygame surface to the screen, your callback must return: surface, center_x, center_y! See Pimgu examples on GitHub: https://github.com/iwilkey/pimgu."

/-- Python semantics of `surface, cx, cy = callback()` for one render
callback: a triple unpacks; an iterable of the wrong length raises
`ValueError`; a non-iterable value raises `TypeError`; exceptions from the
callback body propagate. -/
def unpack3 : RenderCall → Except PyError (Nat × Nat × Int × Int)
  | .triple w h cx cy => .ok (w, h, cx, cy)
  | .wrongArity _ => .error (.valueError "values to unpack mismatch")
  | .nonIterable => .error (.typeError "cannot unpack non-iterable object")
  | .raisesTypeError => .error (.typeError "TypeError raised in callback body")
  | .raisesOther => .error .otherError

/-- The `try`/`except TypeError` around the unpacking in `Applet.__render`:
a `TypeError` (and only a `TypeError`) is replaced by the framework's
`[PIMGU]` exception. -/
def tryUnpack (c : RenderCall) : Except PyError (Nat × Nat × Int × Int) :=
  match unpack3 c with
  | .error (.typeError _) => .error (.pimguError pimguRenderMsg)
  | r => r

/-- Model of `pygame_surface_to_opengl_texture`: one `glGenTextures(1)` for a
fresh id plus the `glTexImage2D` upload; returns the trace, the texture id,
and the next fresh id. -/
def pygame_surface_to_opengl_texture (w h : Nat) (next : TextureId) :
    List Step × TextureId × TextureId :=
  ([.genTexture next, .texImage w h], next, next + 1)

/-- Model of `draw_texture`: binds and draws the textured quad, then deletes
the texture with `glDeleteTextures`. -/
def draw_texture (tid : TextureId) : List Step :=
  [.drawQuad tid, .deleteTexture tid]

/-- Behaviour of the registered pygame render callbacks. -/
abbrev RenderEnv := CallbackId → RenderCall

/-- The `for callback in self.__render_callbacks` loop of `Applet.__render`:
each callback is invoked, its result unpacked (with `TypeError` converted to
the `[PIMGU]` exception), the surface converted to a texture, and the texture
drawn and deleted. -/
def renderLoop (env : RenderEnv) : List CallbackId → TextureId →
    Except PyError (List Step × TextureId)
  | [], next => .ok ([], next)
  | cb :: rest, next =>
    match tryUnpack (env cb) with
    | .error e => .error e
    | .ok (w, h, _cx, _cy) =>
      let (ttr, tid, next') := pygame_surface_to_opengl_texture w h next
      match renderLoop env rest next' with
      | .error e => .error e
      | .ok (tr, next2) => .ok (.renderCall cb :: (ttr ++ draw_texture tid) ++ tr, next2)

/-- Model of `Applet.__render`: run the render callbacks, then draw the ImGui
draw data, then flip the display buffers. -/
def Applet.render (s : Applet) (env : RenderEnv) (next : TextureId) :
    Except PyError (List Step × TextureId) :=
  match renderLoop env s.render_callbacks next with
  | .error e => .error e
  | .ok (tr, next') => .ok (tr ++ [.imguiRender, .flipDisplay], next')

/-- One iteration of the event loop in `Applet.__process_events`: a QUIT
event calls `set_running(False)`, any other event is forwarded to the ImGui
renderer, and every registered input callback is then called with the
event. -/
def Applet.processEvent (s : Applet) (e : Ev) : Applet × List Step :=
  let (s1, tr) :=
    match e with
    | .quit => (s.set_running false, [Step.setRunning false])
    | .other k => (s, [Step.forwardToImgui (.other k)])
  (s1, tr ++ s.input_callbacks.map (fun cb => Step.inputCall cb e))

/-- The `for event in events` loop of `Applet.__process_events`. -/
def Applet.processEventList (s : Applet) : List Ev → Applet × List Step
  | [] => (s, [])
  | e :: rest =>
    let (s1, tr1) := s.processEvent e
    let (s2, tr2) := s1.processEventList rest
    (s2, tr1 ++ tr2)

/-- Model of `Applet.__process_events`: poll the event queue, then process
each polled event in order. -/
def Applet.process_events (s : Applet) (evs : List Ev) : Applet × List Step :=
  let (s1, tr) := s.processEventList evs
  (s1, Step.pollEvents :: tr)

/-- Model of `Applet.__handle_gui`: `imgui.new_frame()`, the registered ImGui
callbacks in order, `imgui.end_frame()`. -/
def Applet.handle_gui (s : Applet) : List Step :=
  Step.imguiNewFrame :: (s.imgui_callbacks.map Step.guiCall ++ [Step.imguiEndFrame])

/-- Model of `Applet.__sync`: `self.__clock.tick(self.__target_fps)`. -/
def Applet.sync (s : Applet) : List Step :=
  [Step.syncClock s.target_fps]

/-- Model of `Applet.__cls`: set the clear color and clear the buffers. -/
def Applet.cls (_s : Applet) : List Step :=
  [Step.clearScreen]

/-- One iteration of the `while self.__running` loop of `Applet.run`: sync
the clock, process events, handle GUI callbacks, run tick callbacks, clear
the screen, render.  `evs` is the batch of events polled this frame and
`next` the fresh-texture counter. -/
def Applet.frame (s : Applet) (env : RenderEnv) (evs : List Ev) (next : TextureId) :
    Except PyError (Applet × List Step × TextureId) :=
  let syncTr := s.sync
  let (s1, evTr) := s.process_events evs
  let guiTr := s1.handle_gui
  let tickTr := s1.tick_callbacks.map Step.tickCall
  let clsTr := s1.cls
  match s1.render env next with
  | .error e => .error e
  | .ok (rTr, next') => .ok (s1, syncTr ++ evTr ++ guiTr ++ tickTr ++ clsTr ++ rTr, next')

/-- The `while self.__running:` loop of `Applet.run`, driven by an external
schedule of per-frame event batches.  The model stops when the schedule runs
out; the real loop would keep iterating with further polled batches. -/
def Applet.runLoop (s : Applet) (env : RenderEnv) (frames : List (List Ev))
    (next : TextureId) : Except PyError (Applet × List Step × TextureId) :=
  match frames with
  | [] => .ok (s, [], next)
  | evs :: rest =>
    if s.running then
      match s.frame env evs next with
      | .error e => .error e
      | .ok (s1, tr, next') =>
        match Applet.runLoop s1 env rest next' with
        | .error e => .error e
        | .ok (s2, tr2, next2) => .ok (s2, tr ++ tr2, next2)
    else .ok (s, [], next)

/-- Result of `Applet.run`: the loop ended and the epilogue ran; or the model
ran out of scheduled event batches with the applet still running; or a Python
exception escaped. -/
inductive RunResult
  | finished (s : Applet) (tr : List Step)
  | outOfSchedule (s : Applet) (tr : List Step)
  | failed (e : PyError)
  deriving DecidableEq, Repr

/-- Model of `Applet.run`: set the running flag, iterate the frame loop, and
once the flag is false call `self.__on_end_callback()` (a `TypeError` when it
is still `None`), shut down the ImGui renderer and quit pygame. -/
def Applet.run (s : Applet) (env : RenderEnv) (frames : List (List Ev)) : RunResult :=
  let s0 := s.set_running true
  match s0.runLoop env frames 0 with
  | .error e => .failed e
  | .ok (s1, tr, _) =>
    if s1.running then .outOfSchedule s1 tr
    else
      match s1.on_end_callback with
      | none => .failed (.typeError "NoneType object is not callable")
      | some cb =>
        .finished s1 (tr ++ [Step.onEndCall cb, Step.imguiShutdown, Step.engineQuit])

/-- Specification function: the trace produced by processing a list of
events, given the registered input callbacks.  Compared against
`Applet.processEventList` in the lemmas below. -/
def evTraceOf (inputs : List CallbackId) : List Ev → List Step
  | [] => []
  | e :: rest =>
    ((match e with
      | .quit => Step.setRunning false
      | .other k => Step.forwardToImgui (.other k)) ::
      inputs.map (fun cb => Step.inputCall cb e)) ++ evTraceOf inputs rest

/-- Specification function: the trace produced by a successful render-callback
loop.  Compared against `renderLoop` in the lemmas below. -/
def renderTraceOf (env : RenderEnv) : List CallbackId → TextureId → List Step
  | [], _ => []
  | cb :: rest, next =>
    match env cb with
    | .triple w h _ _ =>
      Step.renderCall cb :: Step.genTexture next :: Step.texImage w h ::
        Step.drawQuad next :: Step.deleteTexture next :: renderTraceOf env rest (next + 1)
    | _ => []

/-- Effect of one step on the multiset of live (created, not yet deleted)
OpenGL textures. -/
def liveStep (live : List TextureId) : Step → List TextureId
  | .genTexture t => t :: live
  | .deleteTexture t => live.erase t
  | _ => live

/-- Live textures after a trace, starting from `live`. -/
def liveAfter (tr : List Step) (live : List TextureId) : List TextureId :=
  tr.foldl liveStep live

/-! ### Helper lemmas about the event-processing stage -/

theorem set_running_fields (s : Applet) (b : Bool) :
    (s.set_running b).input_callbacks = s.input_callbacks ∧
    (s.set_running b).imgui_callbacks = s.imgui_callbacks ∧
    (s.set_running b).render_callbacks = s.render_callbacks ∧
    (s.set_running b).tick_callbacks = s.tick_callbacks ∧
    (s.set_running b).on_end_callback = s.on_end_callback ∧
    (s.set_running b).target_fps = s.target_fps := by
  simp [Applet.set_running]

theorem processEventList_spec (s : Applet) (evs : List Ev) :
    s.processEventList evs =
      (if Ev.quit ∈ evs then s.set_running false else s, evTraceOf s.input_callbacks evs) := by
  induction evs generalizing s with
  | nil => simp [Applet.processEventList, evTraceOf]
  | cons e rest ih =>
    cases e with
    | quit =>
      simp only [Applet.processEventList, Applet.processEvent, ih, evTraceOf]
      simp [Applet.set_running, List.mem_cons]
    | other k =>
      simp only [Applet.processEventList, Applet.processEvent, ih, evTraceOf]
      simp [List.mem_cons]

theorem evTraceOf_all_eventStep (inputs : List CallbackId) (evs : List Ev) :
    ∀ st ∈ evTraceOf inputs evs, st.isEventStep = true := by
  induction evs with
  | nil => simp [evTraceOf]
  | cons e rest ih =>
    intro st hst
    cases e <;>
      · simp only [evTraceOf, List.cons_append, List.mem_cons, List.mem_append,
          List.mem_map] at hst
        rcases hst with h | h | h
        · subst h; rfl
        · obtain ⟨cb, _, h⟩ := h; subst h; rfl
        · exact ih st h

theorem filter_eq_nil_of_none {p : Step → Bool} :
    ∀ {tr : List Step}, (∀ st ∈ tr, p st = false) → tr.filter p = [] := by
  intro tr h
  induction tr with
  | nil => rfl
  | cons st rest ih =>
    have h1 := h st (by simp)
    have h2 : ∀ x ∈ rest, p x = false := fun x hx => h x (by simp [hx])
    simp [List.filter_cons, h1, ih h2]

theorem evTraceOf_filter_inputCall (inputs : List CallbackId) (evs : List Ev) :
    (evTraceOf inputs evs).filter Step.isInputCall =
      evs.flatMap (fun e => inputs.map (fun cb => Step.inputCall cb e)) := by
  induction evs with
  | nil => simp [evTraceOf]
  | cons e rest ih =>
    cases e <;>
      · simp only [evTraceOf, List.cons_append, List.filter_cons, List.filter_append,
          List.flatMap_cons, ih]
        simp [Step.isInputCall, List.filter_map, Function.comp_def, List.filter_true]

/-! ### Helper lemmas about the render-callback loop -/

theorem tryUnpack_ok_triple {c : RenderCall} {w h : Nat} {cx cy : Int}
    (hc : tryUnpack c = .ok (w, h, cx, cy)) : c = .triple w h cx cy := by
  cases c <;> simp_all [tryUnpack, unpack3]

theorem renderLoop_ok_spec (env : RenderEnv) :
    ∀ (cbs : List CallbackId) (next : TextureId) {tr : List Step} {next' : TextureId},
      renderLoop env cbs next = .ok (tr, next') →
      next' = next + cbs.length ∧
      tr = renderTraceOf env cbs next ∧
      tr.filter Step.isRenderCall = cbs.map Step.renderCall ∧
      (tr.filter Step.isGen).length = cbs.length ∧
      (tr.filter Step.isDelete).length = cbs.length ∧
      (∀ st ∈ tr, st.isRenderBodyStep = true) ∧
      (∀ live, liveAfter tr live = live) := by
  intro cbs
  induction cbs with
  | nil =>
    intro next tr next' h
    simp only [renderLoop, Except.ok.injEq, Prod.mk.injEq] at h
    obtain ⟨h1, h2⟩ := h
    subst h1 h2
    simp [renderTraceOf, liveAfter]
  | cons cb rest ih =>
    intro next tr next' h
    rw [renderLoop] at h
    cases hu : tryUnpack (env cb) with
    | error e => rw [hu] at h; exact absurd h (by simp)
    | ok v =>
      obtain ⟨w, h2, cx, cy⟩ := v
      rw [hu] at h
      simp only [pygame_surface_to_opengl_texture, draw_texture] at h
      cases hrest : renderLoop env rest (next + 1) with
      | error e => rw [hrest] at h; exact absurd h (by simp)
      | ok v2 =>
        obtain ⟨tr2, next2⟩ := v2
        rw [hrest] at h
        simp only [Except.ok.injEq, Prod.mk.injEq, List.cons_append, List.append_assoc,
          List.nil_append] at h
        obtain ⟨htr, hnext⟩ := h
        obtain ⟨ihn, ihtr, ihrc, ihg, ihd, ihall, ihlive⟩ := ih (next + 1) hrest
        have henv := tryUnpack_ok_triple hu
        subst htr hnext ihn
        refine ⟨by rw [List.length_cons]; ring, ?_, ?_, ?_, ?_, ?_, ?_⟩
        · simp [renderTraceOf, henv, ihtr]
        · simp [List.filter_cons, Step.isRenderCall, Step.isGen, Step.isDelete, ihrc]
        · simp [List.filter_cons, Step.isRenderCall, Step.isGen, Step.isDelete, ihg]
        · simp [List.filter_cons, Step.isRenderCall, Step.isGen, Step.isDelete, ihd]
        · intro st hst
          simp only [List.mem_cons] at hst
          rcases hst with h | h | h | h | h | h
          · subst h; rfl
          · subst h; rfl
          · subst h; rfl
          · subst h; rfl
          · subst h; rfl
          · exact ihall st h
        · intro live
          simp only [liveAfter, List.foldl_cons] at ihlive ⊢
          simp [liveStep, List.erase_cons_head, ihlive]

/-! ### Frame decomposition -/

/-- Specification function: the trace of one successful frame, as the spec
describes it: sync the clock, poll and process input, GUI callbacks, tick
callbacks, clear, render callbacks (with their texture traffic) and ImGui
draw data, swap buffers. -/
def frameTraceOf (s : Applet) (env : RenderEnv) (evs : List Ev) (next : TextureId) :
    List Step :=
  [Step.syncClock s.target_fps] ++
  (Step.pollEvents :: evTraceOf s.input_callbacks evs) ++
  (Step.imguiNewFrame :: (s.imgui_callbacks.map Step.guiCall ++ [Step.imguiEndFrame])) ++
  s.tick_callbacks.map Step.tickCall ++
  [Step.clearScreen] ++
  (renderTraceOf env s.render_callbacks next ++ [Step.imguiRender, Step.flipDisplay])

theorem frame_ok_spec {s : Applet} {env : RenderEnv} {evs : List Ev} {next : TextureId}
    {s1 : Applet} {tr : List Step} {next' : TextureId}
    (h : s.frame env evs next = .ok (s1, tr, next')) :
    s1 = (if Ev.quit ∈ evs then s.set_running false else s) ∧
    next' = next + s.render_callbacks.length ∧
    renderLoop env s.render_callbacks next =
      .ok (renderTraceOf env s.render_callbacks next, next') ∧
    tr = frameTraceOf s env evs next := by
  have hfields := set_running_fields s false
  unfold Applet.frame Applet.process_events Applet.sync Applet.handle_gui Applet.cls
    Applet.render at h
  rw [processEventList_spec] at h
  by_cases hq : Ev.quit ∈ evs
  all_goals
    simp only [hq, if_true, if_false, ite_true, ite_false] at h ⊢
  case pos =>
    simp only [Applet.set_running] at h
    cases hr : renderLoop env s.render_callbacks next with
    | error e => rw [hr] at h; exact absurd h (by simp)
    | ok v =>
      obtain ⟨rTr, next2⟩ := v
      rw [hr] at h
      simp only [Except.ok.injEq, Prod.mk.injEq] at h
      obtain ⟨hs1, htr, hnext⟩ := h
      obtain ⟨hlen, hrtr, _, _, _, _, _⟩ := renderLoop_ok_spec env s.render_callbacks next hr
      subst hs1 hnext
      refine ⟨by simp [Applet.set_running], hlen, by rw [hrtr], ?_⟩
      rw [← htr]
      simp [frameTraceOf, hrtr, Applet.set_running]
  case neg =>
    cases hr : renderLoop env s.render_callbacks next with
    | error e => rw [hr] at h; exact absurd h (by simp)
    | ok v =>
      obtain ⟨rTr, next2⟩ := v
      rw [hr] at h
      simp only [Except.ok.injEq, Prod.mk.injEq] at h
      obtain ⟨hs1, htr, hnext⟩ := h
      obtain ⟨hlen, hrtr, _, _, _, _, _⟩ := renderLoop_ok_spec env s.render_callbacks next hr
      subst hs1 hnext
      refine ⟨rfl, hlen, by rw [hrtr], ?_⟩
      rw [← htr]
      simp [frameTraceOf, hrtr]

/-! ### Filter and liveness helpers -/

theorem evTraceOf_filter_none {p : Step → Bool}
    (hp : ∀ st : Step, st.isEventStep = true → p st = false)
    (inputs : List CallbackId) (evs : List Ev) :
    (evTraceOf inputs evs).filter p = [] :=
  filter_eq_nil_of_none fun st hst => hp st (evTraceOf_all_eventStep inputs evs st hst)

theorem filter_map_self {f : CallbackId → Step} {p : Step → Bool}
    (hf : ∀ cb, p (f cb) = true) (l : List CallbackId) :
    (l.map f).filter p = l.map f := by
  induction l with
  | nil => rfl
  | cons cb rest ih => simp [List.filter_cons, hf, ih]

theorem filter_map_none {f : CallbackId → Step} {p : Step → Bool}
    (hf : ∀ cb, p (f cb) = false) (l : List CallbackId) :
    (l.map f).filter p = [] := by
  induction l with
  | nil => rfl
  | cons cb rest ih => simp [List.filter_cons, hf, ih]

theorem liveAfter_append (tr1 tr2 : List Step) (live : List TextureId) :
    liveAfter (tr1 ++ tr2) live = liveAfter tr2 (liveAfter tr1 live) := by
  simp [liveAfter, List.foldl_append]

theorem liveStep_of_not_texture {st : Step} (h1 : st.isGen = false)
    (h2 : st.isDelete = false) (live : List TextureId) : liveStep live st = live := by
  cases st <;> simp_all [Step.isGen, Step.isDelete, liveStep]

theorem liveAfter_of_no_texture {l : List Step}
    (h : ∀ st ∈ l, st.isGen = false ∧ st.isDelete = false) (live : List TextureId) :
    liveAfter l live = live := by
  induction l generalizing live with
  | nil => rfl
  | cons st rest ih =>
    have h1 := h st (by simp)
    have h2 : ∀ x ∈ rest, x.isGen = false ∧ x.isDelete = false :=
      fun x hx => h x (by simp [hx])
    simp only [liveAfter, List.foldl_cons]
    rw [liveStep_of_not_texture h1.1 h1.2]
    exact ih h2 live

section FrameFilters

variable {s : Applet} {env : RenderEnv} {next nfin : TextureId}

/-- Filter facts about a successful frame trace, shared by several claims. -/
theorem frameTrace_filter_sync (evs : List Ev)
    (hr : renderLoop env s.render_callbacks next =
      .ok (renderTraceOf env s.render_callbacks next, nfin)) :
    (frameTraceOf s env evs next).filter Step.isSync = [Step.syncClock s.target_fps] := by
  obtain ⟨-, -, -, -, -, hall, -⟩ := renderLoop_ok_spec env s.render_callbacks next hr
  have hrn : (renderTraceOf env s.render_callbacks next).filter Step.isSync = [] :=
    filter_eq_nil_of_none fun st hst => by have := hall st hst; cases st <;> simp_all
  have hev := evTraceOf_filter_none (p := Step.isSync)
    (fun st h => by cases st <;> simp_all) s.input_callbacks evs
  simp [frameTraceOf, List.filter_append, hev, hrn, List.filter_map, Function.comp_def]

theorem frameTrace_filter_gui (evs : List Ev)
    (hr : renderLoop env s.render_callbacks next =
      .ok (renderTraceOf env s.render_callbacks next, nfin)) :
    (frameTraceOf s env evs next).filter Step.isGuiCall =
      s.imgui_callbacks.map Step.guiCall := by
  obtain ⟨-, -, -, -, -, hall, -⟩ := renderLoop_ok_spec env s.render_callbacks next hr
  have hrn : (renderTraceOf env s.render_callbacks next).filter Step.isGuiCall = [] :=
    filter_eq_nil_of_none fun st hst => by have := hall st hst; cases st <;> simp_all
  have hev := evTraceOf_filter_none (p := Step.isGuiCall)
    (fun st h => by cases st <;> simp_all) s.input_callbacks evs
  simp [frameTraceOf, List.filter_append, hev, hrn, List.filter_map, Function.comp_def]

theorem frameTrace_filter_tick (evs : List Ev)
    (hr : renderLoop env s.render_callbacks next =
      .ok (renderTraceOf env s.render_callbacks next, nfin)) :
    (frameTraceOf s env evs next).filter Step.isTickCall =
      s.tick_callbacks.map Step.tickCall := by
  obtain ⟨-, -, -, -, -, hall, -⟩ := renderLoop_ok_spec env s.render_callbacks next hr
  have hrn : (renderTraceOf env s.render_callbacks next).filter Step.isTickCall = [] :=
    filter_eq_nil_of_none fun st hst => by have := hall st hst; cases st <;> simp_all
  have hev := evTraceOf_filter_none (p := Step.isTickCall)
    (fun st h => by cases st <;> simp_all) s.input_callbacks evs
  simp [frameTraceOf, List.filter_append, hev, hrn, List.filter_map, Function.comp_def]

theorem frameTrace_filter_render (evs : List Ev)
    (hr : renderLoop env s.render_callbacks next =
      .ok (renderTraceOf env s.render_callbacks next, nfin)) :
    (frameTraceOf s env evs next).filter Step.isRenderCall =
      s.render_callbacks.map Step.renderCall := by
  obtain ⟨-, -, hrc, -, -, -, -⟩ := renderLoop_ok_spec env s.render_callbacks next hr
  have hev := evTraceOf_filter_none (p := Step.isRenderCall)
    (fun st h => by cases st <;> simp_all) s.input_callbacks evs
  simp [frameTraceOf, List.filter_append, hev, hrc, List.filter_map, Function.comp_def]

theorem frameTrace_filter_input (evs : List Ev)
    (hr : renderLoop env s.render_callbacks next =
      .ok (renderTraceOf env s.render_callbacks next, nfin)) :
    (frameTraceOf s env evs next).filter Step.isInputCall =
      evs.flatMap (fun e => s.input_callbacks.map (fun cb => Step.inputCall cb e)) := by
  obtain ⟨-, -, -, -, -, hall, -⟩ := renderLoop_ok_spec env s.render_callbacks next hr
  have hrn : (renderTraceOf env s.render_callbacks next).filter Step.isInputCall = [] :=
    filter_eq_nil_of_none fun st hst => by have := hall st hst; cases st <;> simp_all
  have hev := evTraceOf_filter_inputCall s.input_callbacks evs
  simp [frameTraceOf, List.filter_append, hev, hrn, List.filter_map, Function.comp_def]

theorem frameTrace_filter_gen (evs : List Ev)
    (hr : renderLoop env s.render_callbacks next =
      .ok (renderTraceOf env s.render_callbacks next, nfin)) :
    ((frameTraceOf s env evs next).filter Step.isGen).length =
      s.render_callbacks.length := by
  obtain ⟨-, -, -, hg, -, -, -⟩ := renderLoop_ok_spec env s.render_callbacks next hr
  have hev := evTraceOf_filter_none (p := Step.isGen)
    (fun st h => by cases st <;> simp_all) s.input_callbacks evs
  simp [frameTraceOf, List.filter_append, hev, hg, List.filter_map, Function.comp_def]

theorem frameTrace_filter_delete (evs : List Ev)
    (hr : renderLoop env s.render_callbacks next =
      .ok (renderTraceOf env s.render_callbacks next, nfin)) :
    ((frameTraceOf s env evs next).filter Step.isDelete).length =
      s.render_callbacks.length := by
  obtain ⟨-, -, -, -, hd, -, -⟩ := renderLoop_ok_spec env s.render_callbacks next hr
  have hev := evTraceOf_filter_none (p := Step.isDelete)
    (fun st h => by cases st <;> simp_all) s.input_callbacks evs
  simp [frameTraceOf, List.filter_append, hev, hd, List.filter_map, Function.comp_def]

theorem frameTrace_filter_onEnd (evs : List Ev)
    (hr : renderLoop env s.render_callbacks next =
      .ok (renderTraceOf env s.render_callbacks next, nfin)) :
    (frameTraceOf s env evs next).filter Step.isOnEnd = [] := by
  obtain ⟨-, -, -, -, -, hall, -⟩ := renderLoop_ok_spec env s.render_callbacks next hr
  have hrn : (renderTraceOf env s.render_callbacks next).filter Step.isOnEnd = [] :=
    filter_eq_nil_of_none fun st hst => by have := hall st hst; cases st <;> simp_all
  have hev := evTraceOf_filter_none (p := Step.isOnEnd)
    (fun st h => by cases st <;> simp_all) s.input_callbacks evs
  simp [frameTraceOf, List.filter_append, hev, hrn, List.filter_map, Function.comp_def]

theorem frameTrace_live (evs : List Ev)
    (hr : renderLoop env s.render_callbacks next =
      .ok (renderTraceOf env s.render_callbacks next, nfin)) (live : List TextureId) :
    liveAfter (frameTraceOf s env evs next) live = live := by
  obtain ⟨-, -, -, -, -, -, hlive⟩ := renderLoop_ok_spec env s.render_callbacks next hr
  have hev : ∀ st ∈ Step.pollEvents :: evTraceOf s.input_callbacks evs,
      st.isGen = false ∧ st.isDelete = false := by
    intro st hst
    simp only [List.mem_cons] at hst
    rcases hst with h | hst
    · subst h; exact ⟨rfl, rfl⟩
    · have := evTraceOf_all_eventStep s.input_callbacks evs st hst
      cases st <;> simp_all
  have hgui : ∀ st ∈ Step.imguiNewFrame ::
      (s.imgui_callbacks.map Step.guiCall ++ [Step.imguiEndFrame]),
      st.isGen = false ∧ st.isDelete = false := by
    intro st hst
    simp only [List.mem_cons, List.mem_append, List.mem_map, List.mem_singleton] at hst
    rcases hst with h | ⟨cb, -, hcb⟩ | h | h
    · subst h; exact ⟨rfl, rfl⟩
    · subst hcb; exact ⟨rfl, rfl⟩
    · subst h; exact ⟨rfl, rfl⟩
    · cases h
  have htick : ∀ st ∈ s.tick_callbacks.map Step.tickCall,
      st.isGen = false ∧ st.isDelete = false := by
    intro st hst
    obtain ⟨cb, -, hcb⟩ := List.mem_map.mp hst
    subst hcb; exact ⟨rfl, rfl⟩
  simp only [frameTraceOf, liveAfter_append]
  rw [liveAfter_of_no_texture (l := [Step.syncClock s.target_fps]) (by simp),
    liveAfter_of_no_texture hev, liveAfter_of_no_texture hgui,
    liveAfter_of_no_texture htick,
    liveAfter_of_no_texture (l := [Step.clearScreen]) (by simp),
    hlive,
    liveAfter_of_no_texture (l := [Step.imguiRender, Step.flipDisplay]) (by simp)]

end FrameFilters

/-! ### Run-loop and error-path helpers -/

/-- A frame changes nothing but the running flag. -/
theorem frame_preserves {s : Applet} {env : RenderEnv} {evs : List Ev} {next : TextureId}
    {s1 : Applet} {tr : List Step} {next' : TextureId}
    (h : s.frame env evs next = .ok (s1, tr, next')) :
    s1.on_end_callback = s.on_end_callback ∧
    s1.input_callbacks = s.input_callbacks ∧
    s1.imgui_callbacks = s.imgui_callbacks ∧
    s1.render_callbacks = s.render_callbacks ∧
    s1.tick_callbacks = s.tick_callbacks ∧
    s1.target_fps = s.target_fps := by
  obtain ⟨hs1, -, -, -⟩ := frame_ok_spec h
  subst hs1
  by_cases hq : Ev.quit ∈ evs <;> simp [hq, Applet.set_running]

/-- The run loop never touches the on-end slot and never performs an on-end
call inside a frame. -/
theorem runLoop_onEnd {env : RenderEnv} :
    ∀ (frames : List (List Ev)) (s : Applet) (next : TextureId) {s1 : Applet}
      {tr : List Step} {next' : TextureId},
      s.runLoop env frames next = .ok (s1, tr, next') →
      s1.on_end_callback = s.on_end_callback ∧ tr.filter Step.isOnEnd = [] := by
  intro frames
  induction frames with
  | nil =>
    intro s next s1 tr next' h
    simp only [Applet.runLoop, Except.ok.injEq, Prod.mk.injEq] at h
    obtain ⟨h1, h2, h3⟩ := h
    subst h1 h2
    exact ⟨rfl, rfl⟩
  | cons evs rest ih =>
    intro s next s1 tr next' h
    rw [Applet.runLoop] at h
    by_cases hrun : s.running
    · rw [if_pos hrun] at h
      cases hf : s.frame env evs next with
      | error e => rw [hf] at h; exact absurd h (by simp)
      | ok v =>
        obtain ⟨sA, trA, nA⟩ := v
        rw [hf] at h
        dsimp only at h
        cases hl : sA.runLoop env rest nA with
        | error e => rw [hl] at h; exact absurd h (by simp)
        | ok v2 =>
          obtain ⟨sB, trB, nB⟩ := v2
          rw [hl] at h
          simp only [Except.ok.injEq, Prod.mk.injEq] at h
          obtain ⟨h1, h2, h3⟩ := h
          subst h1 h2
          obtain ⟨hoe, -, -, -, -, -⟩ := frame_preserves hf
          obtain ⟨ihoe, ihtr⟩ := ih sA nA hl
          refine ⟨by rw [ihoe, hoe], ?_⟩
          obtain ⟨-, -, hr, htr⟩ := frame_ok_spec hf
          rw [List.filter_append, ihtr, htr, frameTrace_filter_onEnd evs hr]
          rfl
    · rw [if_neg hrun] at h
      simp only [Except.ok.injEq, Prod.mk.injEq] at h
      obtain ⟨h1, h2, h3⟩ := h
      subst h1 h2
      exact ⟨rfl, rfl⟩

/-- Whether the tuple unpacking of one render callback's result succeeds. -/
def unpacksOk (env : RenderEnv) (c : CallbackId) : Bool :=
  match tryUnpack (env c) with
  | .ok _ => true
  | .error _ => false

/-- Specification function: the error raised (after the `except TypeError`
conversion) by the first render callback whose result fails to unpack, if
any. -/
def firstRenderError (env : RenderEnv) : List CallbackId → Option PyError
  | [] => none
  | cb :: rest =>
    match tryUnpack (env cb) with
    | .error e => some e
    | .ok _ => firstRenderError env rest

theorem renderLoop_error_iff (env : RenderEnv) :
    ∀ (cbs : List CallbackId) (next : TextureId) (e : PyError),
      renderLoop env cbs next = .error e ↔ firstRenderError env cbs = some e := by
  intro cbs
  induction cbs with
  | nil => intro next e; simp [renderLoop, firstRenderError]
  | cons cb rest ih =>
    intro next e
    rw [renderLoop, firstRenderError]
    cases hu : tryUnpack (env cb) with
    | error e2 => simp
    | ok v =>
      obtain ⟨w, h2, cx, cy⟩ := v
      simp only [pygame_surface_to_opengl_texture]
      cases hrest : renderLoop env rest (next + 1) with
      | error e2 => simp only; rw [← ih (next + 1) e, hrest]
      | ok v2 =>
        obtain ⟨tr2, n2⟩ := v2
        simp only
        rw [← ih (next + 1) e, hrest]
        simp

/-- The frame fails with exactly the error of the first failing render
callback; all other frame stages are total. -/
theorem frame_error_iff (s : Applet) (env : RenderEnv) (evs : List Ev)
    (next : TextureId) (e : PyError) :
    s.frame env evs next = .error e ↔
      firstRenderError env s.render_callbacks = some e := by
  rw [← renderLoop_error_iff env s.render_callbacks next e]
  unfold Applet.frame Applet.process_events Applet.sync Applet.handle_gui Applet.cls
    Applet.render
  rw [processEventList_spec]
  have hrc : (if Ev.quit ∈ evs then s.set_running false else s).render_callbacks
      = s.render_callbacks := by
    by_cases hq : Ev.quit ∈ evs <;> simp [hq, Applet.set_running]
  dsimp only
  rw [hrc]
  cases hr : renderLoop env s.render_callbacks next with
  | error e2 => simp
  | ok v => obtain ⟨tr2, n2⟩ := v; simp

/-- If every callback before `cb` unpacks fine and `cb` fails, the loop
raises the error of `cb`. -/
theorem renderLoop_first_error (env : RenderEnv) :
    ∀ (pre : List CallbackId) (cb : CallbackId) (post : List CallbackId)
      (next : TextureId) (e : PyError),
      (∀ c ∈ pre, unpacksOk env c = true) → tryUnpack (env cb) = .error e →
      renderLoop env (pre ++ cb :: post) next = .error e := by
  intro pre
  induction pre with
  | nil =>
    intro cb post next e hpre hcb
    rw [List.nil_append, renderLoop, hcb]
  | cons c pre' ih =>
    intro cb post next e hpre hcb
    have hc := hpre c (by simp)
    rw [List.cons_append, renderLoop]
    unfold unpacksOk at hc
    cases hu : tryUnpack (env c) with
    | error e2 => rw [hu] at hc; cases hc
    | ok v =>
      obtain ⟨w, h2, cx, cy⟩ := v
      simp only [pygame_surface_to_opengl_texture]
      rw [ih cb post (next + 1) e (fun x hx => hpre x (by simp [hx])) hcb]

/-! ### Concrete instances used in witnesses and counterexamples -/

/-- A small applet with one callback of every kind registered. -/
def sampleApplet : Applet :=
  { title := "Pimgu Application", dimensions := (1280, 720), icon_path := "",
    target_fps := 60, cls_color := defaultClsColor,
    input_callbacks := [10], imgui_callbacks := [20], render_callbacks := [30],
    tick_callbacks := [40], on_end_callback := some 50, running := true }

/-- Render-callback behaviour where every callback returns a well-formed
triple: a 4 by 3 surface centred at (1, 2). -/
def sampleEnv : RenderEnv := fun _ => RenderCall.triple 4 3 1 2

/-- The trace of one `sampleApplet` frame polling one non-QUIT event. -/
def sampleFrameTrace : List Step :=
  [Step.syncClock 60, Step.pollEvents, Step.forwardToImgui (Ev.other 7),
   Step.inputCall 10 (Ev.other 7), Step.imguiNewFrame, Step.guiCall 20,
   Step.imguiEndFrame, Step.tickCall 40, Step.clearScreen, Step.renderCall 30,
   Step.genTexture 0, Step.texImage 4 3, Step.drawQuad 0, Step.deleteTexture 0,
   Step.imguiRender, Step.flipDisplay]

/-- The trace of one `sampleApplet` frame polling no events. -/
def sampleNoEventTrace : List Step :=
  [Step.syncClock 60, Step.pollEvents, Step.imguiNewFrame, Step.guiCall 20,
   Step.imguiEndFrame, Step.tickCall 40, Step.clearScreen, Step.renderCall 30,
   Step.genTexture 0, Step.texImage 4 3, Step.drawQuad 0, Step.deleteTexture 0,
   Step.imguiRender, Step.flipDisplay]

/-- An applet with exactly one registered render callback and nothing else. -/
def oneRenderApplet : Applet :=
  { title := "Pimgu Application", dimensions := (1280, 720), icon_path := "",
    target_fps := 60, cls_color := defaultClsColor,
    input_callbacks := [], imgui_callbacks := [], render_callbacks := [0],
    tick_callbacks := [], on_end_callback := none, running := true }

/-! ### Claim theorems -/

/-- C1: while the running flag is true, each iteration of the run loop
executes exactly these steps in this order: sync the clock to the target
frame rate, poll and process the input events, run the registered ImGui
callbacks (between `new_frame` and `end_frame`), run the registered tick
callbacks, clear the screen, run the registered pygame render callbacks, and
(drawing the ImGui data) swap the display buffers. -/
theorem run_loop_iteration_step_order (s s1 s2 : Applet) (env : RenderEnv)
    (evs : List Ev) (rest : List (List Ev)) (next next' next2 : TextureId)
    (ftr tr2 : List Step)
    (hrun : s.running = true)
    (hfr : s.frame env evs next = .ok (s1, ftr, next'))
    (hloop : s1.runLoop env rest next' = .ok (s2, tr2, next2)) :
    s.runLoop env (evs :: rest) next = .ok (s2, ftr ++ tr2, next2) ∧
    ftr = [Step.syncClock s.target_fps] ++
      (Step.pollEvents :: evTraceOf s.input_callbacks evs) ++
      (Step.imguiNewFrame :: (s.imgui_callbacks.map Step.guiCall ++ [Step.imguiEndFrame])) ++
      s.tick_callbacks.map Step.tickCall ++
      [Step.clearScreen] ++
      (renderTraceOf env s.render_callbacks next ++ [Step.imguiRender, Step.flipDisplay]) ∧
    (evTraceOf s.input_callbacks evs).all Step.isEventStep = true ∧
    (renderTraceOf env s.render_callbacks next).all Step.isRenderBodyStep = true := by
  refine ⟨?_, ?_, ?_, ?_⟩
  · rw [Applet.runLoop, if_pos hrun, hfr]
    dsimp only
    rw [hloop]
  · obtain ⟨-, -, -, htr⟩ := frame_ok_spec hfr
    rw [htr]
    rfl
  · rw [List.all_eq_true]
    intro st hst
    exact evTraceOf_all_eventStep s.input_callbacks evs st hst
  · obtain ⟨-, -, hr, -⟩ := frame_ok_spec hfr
    obtain ⟨-, -, -, -, -, hall, -⟩ := renderLoop_ok_spec env s.render_callbacks next hr
    rw [List.all_eq_true]
    intro st hst
    exact hall st hst

theorem run_loop_iteration_step_order_witness :
    sampleApplet.runLoop sampleEnv [[Ev.other 7]] 0 =
      .ok (sampleApplet, sampleFrameTrace ++ [], 1) ∧
    sampleFrameTrace = [Step.syncClock sampleApplet.target_fps] ++
      (Step.pollEvents :: evTraceOf sampleApplet.input_callbacks [Ev.other 7]) ++
      (Step.imguiNewFrame ::
        (sampleApplet.imgui_callbacks.map Step.guiCall ++ [Step.imguiEndFrame])) ++
      sampleApplet.tick_callbacks.map Step.tickCall ++
      [Step.clearScreen] ++
      (renderTraceOf sampleEnv sampleApplet.render_callbacks 0 ++
        [Step.imguiRender, Step.flipDisplay]) ∧
    (evTraceOf sampleApplet.input_callbacks [Ev.other 7]).all Step.isEventStep = true ∧
    (renderTraceOf sampleEnv sampleApplet.render_callbacks 0).all
      Step.isRenderBodyStep = true :=
  run_loop_iteration_step_order sampleApplet sampleApplet sampleApplet sampleEnv
    [Ev.other 7] [] 0 1 1 sampleFrameTrace [] rfl (by rfl) rfl

/-- C2: in every completed frame, each registered render callback performs
exactly one texture creation and one deletion of that same texture before its
draw completes (visible in the per-callback segments of `renderTraceOf`), the
total number of creations and deletions both equal the number of registered
render callbacks, and the set of live textures is left unchanged, so no
texture created during a frame remains live after it. -/
theorem frame_texture_balance (s s1 : Applet) (env : RenderEnv) (evs : List Ev)
    (next next' : TextureId) (tr : List Step)
    (h : s.frame env evs next = .ok (s1, tr, next')) :
    renderLoop env s.render_callbacks next =
      .ok (renderTraceOf env s.render_callbacks next, next') ∧
    (tr.filter Step.isGen).length = s.render_callbacks.length ∧
    (tr.filter Step.isDelete).length = s.render_callbacks.length ∧
    (tr.filter Step.isRenderCall).length = s.render_callbacks.length ∧
    (∀ live, liveAfter tr live = live) ∧
    liveAfter tr [] = [] := by
  obtain ⟨-, -, hr, htr⟩ := frame_ok_spec h
  subst htr
  refine ⟨hr, frameTrace_filter_gen evs hr, frameTrace_filter_delete evs hr, ?_,
    frameTrace_live evs hr, frameTrace_live evs hr []⟩
  rw [frameTrace_filter_render evs hr, List.length_map]

theorem frame_texture_balance_witness :
    ((sampleFrameTrace.filter Step.isGen).length =
      sampleApplet.render_callbacks.length) ∧
    ((sampleFrameTrace.filter Step.isDelete).length =
      sampleApplet.render_callbacks.length) ∧
    liveAfter sampleFrameTrace [] = [] := by
  have h := frame_texture_balance sampleApplet sampleApplet sampleEnv [Ev.other 7]
    0 1 sampleFrameTrace (by rfl)
  exact ⟨h.2.1, h.2.2.1, h.2.2.2.2.2⟩

/-- C3 counterexample: constructing an applet with a nonempty icon path that
does not exist raises the framework-defined error
`[PIMGU] Invalid icon path!`, refuting the claim that no operation of the
Applet raises a framework-defined error. -/
theorem construct_raises_framework_error :
    Applet.construct "Pimgu Application" (1280, 720) "icon.png" (fun _ => false) =
      .error (.pimguError "[PIMGU] Invalid icon path!") := by
  rfl

/-- C3 amended: the framework contains exactly two pieces of failure
handling: construction raises `[PIMGU] Invalid icon path!` precisely when a
nonempty icon path does not exist, and the render step replaces a `TypeError`
arising from a render callback by the framework's `[PIMGU]` exception (so no
`TypeError` escapes the unpacking); any error escaping a frame is the error
of the first failing render callback, and every other frame stage is total. -/
theorem failure_handling_characterization :
    (∀ (t : String) (d : Nat × Nat) (icon : String) (pe : PathPredicate) (e : PyError),
      Applet.construct t d icon pe = .error e ↔
        (icon ≠ "" ∧ pe icon = false ∧
          e = .pimguError "[PIMGU] Invalid icon path!")) ∧
    (∀ (s : Applet) (env : RenderEnv) (evs : List Ev) (next : TextureId) (e : PyError),
      s.frame env evs next = .error e ↔
        firstRenderError env s.render_callbacks = some e) ∧
    (∀ (c : RenderCall) (msg : String), tryUnpack c ≠ .error (.typeError msg)) := by
  refine ⟨?_, ?_, ?_⟩
  · intro t d icon pe e
    unfold Applet.construct
    by_cases hcond : icon ≠ "" ∧ pe icon = false
    · rw [if_pos hcond]
      simp [hcond.1, hcond.2, eq_comm]
    · rw [if_neg hcond]
      constructor
      · intro h
        exact absurd h (by simp)
      · rintro ⟨h1, h2, -⟩
        exact absurd ⟨h1, h2⟩ hcond
  · intro s env evs next e
    exact frame_error_iff s env evs next e
  · intro c msg h
    cases c <;> simp_all [tryUnpack, unpack3]

theorem failure_handling_characterization_witness :
    Applet.construct "Pimgu Application" (1280, 720) "missing.png" (fun _ => false) =
      .error (.pimguError "[PIMGU] Invalid icon path!") ∧
    oneRenderApplet.frame (fun _ => RenderCall.nonIterable) [] 0 =
      .error (.pimguError pimguRenderMsg) := by
  have h := failure_handling_characterization
  refine ⟨(h.1 "Pimgu Application" (1280, 720) "missing.png" (fun _ => false)
    (.pimguError "[PIMGU] Invalid icon path!")).mpr ⟨by simp, rfl, rfl⟩, ?_⟩
  exact (h.2.1 oneRenderApplet (fun _ => RenderCall.nonIterable) [] 0
    (.pimguError pimguRenderMsg)).mpr (by rfl)

/-- C4 counterexample: `sampleApplet` has one registered input callback, yet
a frame of the run loop that polls no events invokes no input callback at
all, refuting the claim that every frame invokes every callback of each of
the four lists exactly once. -/
theorem input_callbacks_not_once_per_frame :
    sampleApplet.frame sampleEnv [] 0 = .ok (sampleApplet, sampleNoEventTrace, 1) ∧
    sampleApplet.input_callbacks.length = 1 ∧
    (sampleNoEventTrace.filter Step.isInputCall).length = 0 :=
  ⟨by rfl, rfl, by rfl⟩

/-- C4 amended: each register method appends the callback to its list,
keeping previous registrations and their order; every completed frame of the
run loop invokes the imgui, tick and render callbacks each exactly once in
registration order, and invokes the input callbacks once per polled event
(in registration order for each event), not once per frame. -/
theorem callback_registration_and_dispatch (s s1 : Applet) (cb : CallbackId)
    (env : RenderEnv) (evs : List Ev) (next next' : TextureId) (tr : List Step)
    (h : s.frame env evs next = .ok (s1, tr, next')) :
    (s.register_input_callback cb).input_callbacks = s.input_callbacks ++ [cb] ∧
    (s.register_imgui_callback cb).imgui_callbacks = s.imgui_callbacks ++ [cb] ∧
    (s.register_pygame_render_callback cb).render_callbacks =
      s.render_callbacks ++ [cb] ∧
    (s.register_tick_callback cb).tick_callbacks = s.tick_callbacks ++ [cb] ∧
    tr.filter Step.isGuiCall = s.imgui_callbacks.map Step.guiCall ∧
    tr.filter Step.isTickCall = s.tick_callbacks.map Step.tickCall ∧
    tr.filter Step.isRenderCall = s.render_callbacks.map Step.renderCall ∧
    tr.filter Step.isInputCall =
      evs.flatMap (fun e => s.input_callbacks.map (fun c => Step.inputCall c e)) := by
  obtain ⟨-, -, hr, htr⟩ := frame_ok_spec h
  subst htr
  exact ⟨rfl, rfl, rfl, rfl, frameTrace_filter_gui evs hr,
    frameTrace_filter_tick evs hr, frameTrace_filter_render evs hr,
    frameTrace_filter_input evs hr⟩

theorem callback_registration_and_dispatch_witness :
    (sampleApplet.register_input_callback 99).input_callbacks = [10] ++ [99] ∧
    sampleFrameTrace.filter Step.isGuiCall =
      sampleApplet.imgui_callbacks.map Step.guiCall ∧
    sampleFrameTrace.filter Step.isTickCall =
      sampleApplet.tick_callbacks.map Step.tickCall ∧
    sampleFrameTrace.filter Step.isRenderCall =
      sampleApplet.render_callbacks.map Step.renderCall ∧
    sampleFrameTrace.filter Step.isInputCall =
      [Ev.other 7].flatMap
        (fun e => sampleApplet.input_callbacks.map (fun c => Step.inputCall c e)) := by
  have h := callback_registration_and_dispatch sampleApplet sampleApplet 99 sampleEnv
    [Ev.other 7] 0 1 sampleFrameTrace (by rfl)
  exact ⟨h.1, h.2.2.2.2.1, h.2.2.2.2.2.1, h.2.2.2.2.2.2.1, h.2.2.2.2.2.2.2⟩

/-- The applet state produced by a default construction. -/
def defaultApplet : Applet :=
  { title := "Pimgu Application", dimensions := (1280, 720), icon_path := "",
    target_fps := 60, cls_color := defaultClsColor, input_callbacks := [],
    imgui_callbacks := [], render_callbacks := [], tick_callbacks := [],
    on_end_callback := none, running := false }

/-- C5: every completed frame of the run loop synchronizes the clock exactly
once, as its very first step and before any event or callback handling,
against the applet's current target frame rate; `set_target_fps` overwrites
that rate, and construction defaults it to 60. -/
theorem fixed_rate_clock_sync (s s1 : Applet) (env : RenderEnv) (evs : List Ev)
    (next next' : TextureId) (tr : List Step) (fps : Nat)
    (t : String) (d : Nat × Nat) (icon : String) (pe : PathPredicate) (a : Applet)
    (h : s.frame env evs next = .ok (s1, tr, next'))
    (hc : Applet.construct t d icon pe = .ok a) :
    tr.head? = some (Step.syncClock s.target_fps) ∧
    tr.filter Step.isSync = [Step.syncClock s.target_fps] ∧
    (s.set_target_fps fps).target_fps = fps ∧
    a.target_fps = 60 := by
  obtain ⟨-, -, hr, htr⟩ := frame_ok_spec h
  subst htr
  refine ⟨rfl, frameTrace_filter_sync evs hr, rfl, ?_⟩
  unfold Applet.construct at hc
  by_cases hcond : icon ≠ "" ∧ pe icon = false
  · rw [if_pos hcond] at hc
    exact absurd hc (by simp)
  · rw [if_neg hcond] at hc
    simp only [Except.ok.injEq] at hc
    subst hc
    rfl

theorem fixed_rate_clock_sync_witness :
    sampleFrameTrace.head? = some (Step.syncClock sampleApplet.target_fps) ∧
    sampleFrameTrace.filter Step.isSync = [Step.syncClock sampleApplet.target_fps] ∧
    (sampleApplet.set_target_fps 30).target_fps = 30 ∧
    defaultApplet.target_fps = 60 :=
  fixed_rate_clock_sync sampleApplet sampleApplet sampleEnv [Ev.other 7] 0 1
    sampleFrameTrace 30 "Pimgu Application" (1280, 720) "" (fun _ => true)
    defaultApplet (by rfl) (by rfl)

/-- C6: `register_on_end_callback` stores a single callback, overwriting any
previous one; when the run loop exits with the running flag false, the run
epilogue calls the stored callback exactly once and then shuts the ImGui
renderer down and quits pygame; if no on-end callback was ever registered the
epilogue fails with a `TypeError` from calling `None`. -/
theorem on_end_callback_semantics (s : Applet) (cb : CallbackId) (env : RenderEnv)
    (frames : List (List Ev)) :
    ((s.register_on_end_callback cb).on_end_callback = some cb) ∧
    (∀ s2 tr, s.run env frames = .finished s2 tr →
      s2.on_end_callback = s.on_end_callback ∧ s2.running = false ∧
      (∀ cb0, s.on_end_callback = some cb0 →
        tr.filter Step.isOnEnd = [Step.onEndCall cb0] ∧
        tr.reverse.take 3 =
          [Step.engineQuit, Step.imguiShutdown, Step.onEndCall cb0])) ∧
    (∀ s1 tr1 n, (s.set_running true).runLoop env frames 0 = .ok (s1, tr1, n) →
      s1.running = false → s1.on_end_callback = none →
      s.run env frames = .failed (.typeError "NoneType object is not callable")) := by
  refine ⟨rfl, ?_, ?_⟩
  · intro s2 tr hfin
    unfold Applet.run at hfin
    dsimp only at hfin
    cases hl : (s.set_running true).runLoop env frames 0 with
    | error e => rw [hl] at hfin; cases hfin
    | ok v =>
      obtain ⟨sA, trA, nA⟩ := v
      rw [hl] at hfin
      dsimp only at hfin
      by_cases hrun : sA.running
      · rw [if_pos hrun] at hfin; cases hfin
      · rw [if_neg hrun] at hfin
        cases hoe : sA.on_end_callback with
        | none => rw [hoe] at hfin; cases hfin
        | some c =>
          rw [hoe] at hfin
          simp only [RunResult.finished.injEq] at hfin
          obtain ⟨hs2, htr⟩ := hfin
          subst hs2 htr
          obtain ⟨hoeA, htrA⟩ := runLoop_onEnd frames (s.set_running true) 0 hl
          have hoes : sA.on_end_callback = s.on_end_callback := by
            rw [hoeA]; rfl
          refine ⟨hoes, by simpa using hrun, ?_⟩
          intro cb0 hcb0
          have hc : c = cb0 := by
            rw [hoe, hcb0] at hoes
            exact Option.some.inj hoes
          subst hc
          constructor
          · rw [List.filter_append, htrA]
            rfl
          · rw [List.reverse_append]
            rfl
  · intro s1 tr1 n hl hrun hnone
    unfold Applet.run
    dsimp only
    rw [hl]
    dsimp only
    rw [if_neg (by simp [hrun]), hnone]

/-- The applet state after a frame that processed a QUIT event. -/
def sampleQuitApplet : Applet := { sampleApplet with running := false }

/-- The frame trace of `sampleApplet` polling exactly a QUIT event. -/
def sampleQuitFrameTrace : List Step :=
  [Step.syncClock 60, Step.pollEvents, Step.setRunning false,
   Step.inputCall 10 Ev.quit, Step.imguiNewFrame, Step.guiCall 20,
   Step.imguiEndFrame, Step.tickCall 40, Step.clearScreen, Step.renderCall 30,
   Step.genTexture 0, Step.texImage 4 3, Step.drawQuad 0, Step.deleteTexture 0,
   Step.imguiRender, Step.flipDisplay]

/-- The full run trace: the QUIT frame followed by the epilogue. -/
def sampleQuitRunTrace : List Step :=
  sampleQuitFrameTrace ++ [Step.onEndCall 50, Step.imguiShutdown, Step.engineQuit]

theorem on_end_callback_semantics_witness :
    (sampleApplet.register_on_end_callback 77).on_end_callback = some 77 ∧
    sampleQuitApplet.on_end_callback = sampleApplet.on_end_callback ∧
    sampleQuitApplet.running = false ∧
    sampleQuitRunTrace.filter Step.isOnEnd = [Step.onEndCall 50] ∧
    sampleQuitRunTrace.reverse.take 3 =
      [Step.engineQuit, Step.imguiShutdown, Step.onEndCall 50] := by
  obtain ⟨h1, h2, -⟩ := on_end_callback_semantics sampleApplet 77 sampleEnv [[Ev.quit]]
  obtain ⟨ha, hb, hc⟩ := h2 sampleQuitApplet sampleQuitRunTrace (by rfl)
  obtain ⟨hd, he⟩ := hc 50 rfl
  exact ⟨h1, ha, hb, hd, he⟩

/-- C7 counterexample: a render callback returning a 2-element iterable
cannot be unpacked into the triple `(surface, center_x, center_y)`, yet the
render step raises the `ValueError` coming from the unpacking — the
`except TypeError` handler does not catch it — and not an `Exception` whose
message starts with `[PIMGU] When it is desired to draw a pygame surface to
the screen`. -/
theorem wrong_arity_gives_valueerror :
    oneRenderApplet.frame (fun _ => RenderCall.wrongArity 2) [] 0 =
      .error (.valueError "values to unpack mismatch") := by
  rfl

/-- C7 amended: a registered render callback whose invocation raises a
`TypeError`, or whose return value is not iterable (so that the tuple
unpacking itself raises `TypeError`), makes the render step raise the
framework exception whose message starts with `[PIMGU] When it is desired to
draw a pygame surface to the screen`, provided the callbacks before it
unpack fine; a return value that is iterable but not of length three instead
raises an uncaught `ValueError`. -/
theorem render_typeerror_becomes_pimgu_error (s : Applet) (env : RenderEnv)
    (evs : List Ev) (next : TextureId) (cb : CallbackId)
    (pre post : List CallbackId) (n : Nat)
    (hlist : s.render_callbacks = pre ++ cb :: post)
    (hpre : ∀ c ∈ pre, unpacksOk env c = true)
    (hcb : env cb = RenderCall.raisesTypeError ∨ env cb = RenderCall.nonIterable) :
    s.frame env evs next = .error (.pimguError pimguRenderMsg) ∧
    List.isPrefixOf
      "[PIMGU] When it is desired to draw a pygame surface to the screen".data
      pimguRenderMsg.data = true ∧
    unpack3 (RenderCall.wrongArity n) =
      .error (.valueError "values to unpack mismatch") ∧
    tryUnpack (RenderCall.wrongArity n) =
      .error (.valueError "values to unpack mismatch") := by
  have htu : tryUnpack (env cb) = .error (.pimguError pimguRenderMsg) := by
    rcases hcb with h | h <;> rw [h] <;> rfl
  have hrl := renderLoop_first_error env pre cb post next
    (.pimguError pimguRenderMsg) hpre htu
  refine ⟨(frame_error_iff s env evs next _).mpr ?_, by decide, rfl, rfl⟩
  rw [hlist]
  exact (renderLoop_error_iff env (pre ++ cb :: post) next _).mp hrl

theorem render_typeerror_becomes_pimgu_error_witness :
    oneRenderApplet.frame (fun _ => RenderCall.raisesTypeError) [] 0 =
      .error (.pimguError pimguRenderMsg) ∧
    List.isPrefixOf
      "[PIMGU] When it is desired to draw a pygame surface to the screen".data
      pimguRenderMsg.data = true := by
  have h := render_typeerror_becomes_pimgu_error oneRenderApplet
    (fun _ => RenderCall.raisesTypeError) [] 0 0 [] [] 2 rfl
    (by intro c hc; cases hc) (Or.inl rfl)
  exact ⟨h.1, h.2.1⟩

/-- Input-call filter over the trace of one processed event. -/
theorem filter_inputCall_map (l : List CallbackId) (e : Ev) :
    ((l.map (fun c => Step.inputCall c e)).filter Step.isInputCall) =
      l.map (fun c => Step.inputCall c e) :=
  filter_map_self (fun _ => rfl) l

/-- C8: during event processing a QUIT event sets the running flag false and
is not forwarded to the ImGui renderer, while a non-QUIT event is forwarded;
every registered input callback is invoked once with each event, QUIT
included; a frame that polls a QUIT still performs its remaining steps (GUI
callbacks, tick callbacks, clear, render, ImGui draw data, buffer swap), and
the loop then exits at the next running-flag check. -/
theorem quit_event_processing (s s1 : Applet) (env : RenderEnv) (k : Nat)
    (evs : List Ev) (rest : List (List Ev)) (next next' : TextureId) (tr : List Step)
    (hq : Ev.quit ∈ evs)
    (h : s.frame env evs next = .ok (s1, tr, next')) :
    (s.processEvent Ev.quit).1.running = false ∧
    (∀ e, Step.forwardToImgui e ∉ (s.processEvent Ev.quit).2) ∧
    Step.forwardToImgui (Ev.other k) ∈ (s.processEvent (Ev.other k)).2 ∧
    (∀ e, ((s.processEvent e).2).filter Step.isInputCall =
      s.input_callbacks.map (fun c => Step.inputCall c e)) ∧
    s1.running = false ∧
    Step.clearScreen ∈ tr ∧ Step.imguiRender ∈ tr ∧ Step.flipDisplay ∈ tr ∧
    tr.filter Step.isGuiCall = s.imgui_callbacks.map Step.guiCall ∧
    tr.filter Step.isTickCall = s.tick_callbacks.map Step.tickCall ∧
    s1.runLoop env rest next' = .ok (s1, [], next') := by
  obtain ⟨hs1, -, hr, htr⟩ := frame_ok_spec h
  have hrun : s1.running = false := by rw [hs1, if_pos hq]; rfl
  subst htr
  refine ⟨rfl, ?_, ?_, ?_, hrun, ?_, ?_, ?_, frameTrace_filter_gui evs hr,
    frameTrace_filter_tick evs hr, ?_⟩
  · intro e
    simp [Applet.processEvent, List.mem_cons, List.mem_map]
  · simp [Applet.processEvent]
  · intro e
    cases e <;> simp [Applet.processEvent, List.filter_cons, filter_inputCall_map]
  · simp [frameTraceOf]
  · simp [frameTraceOf]
  · simp [frameTraceOf]
  · cases rest with
    | nil => rfl
    | cons evs2 rest2 => rw [Applet.runLoop, if_neg (by simp [hrun])]

theorem quit_event_processing_witness :
    (sampleApplet.processEvent Ev.quit).1.running = false ∧
    Step.forwardToImgui (Ev.other 3) ∈ (sampleApplet.processEvent (Ev.other 3)).2 ∧
    sampleQuitApplet.running = false ∧
    Step.clearScreen ∈ sampleQuitFrameTrace ∧
    Step.flipDisplay ∈ sampleQuitFrameTrace ∧
    sampleQuitApplet.runLoop sampleEnv [] 1 = .ok (sampleQuitApplet, [], 1) := by
  have h := quit_event_processing sampleApplet sampleQuitApplet sampleEnv 3 [Ev.quit]
    [] 0 1 sampleQuitFrameTrace (by simp) (by rfl)
  exact ⟨h.1, h.2.2.1, h.2.2.2.2.1, h.2.2.2.2.2.1, h.2.2.2.2.2.2.2.1,
    h.2.2.2.2.2.2.2.2.2.2⟩

end Pimgu
